import Mathlib

/-!
Verification development for the FOEDUS record-level concurrency-control
excerpt: the queue-based try-semantics MCS reader/writer lock attached to
every versioned record id (`RwLockableXctId`), the sequential-storage
partitioner, and the engine-memory accessor.

The lock implementation itself (`foedus/xct/xct_id.hpp` and the thread-side
`mcs_try_acquire_*` routines) is not part of the source excerpt: only its
test harness (`test_xct_id_try_rw_lock.cpp`) is. The lock's data model and
operations below are therefore modelled from the specification's own words
(sections 3, 4.1-4.4 and 5 of the spec), as explicit state-passing over a
record state; each such definition carries a `Modelled from the spec:` doc
comment. The partitioner and engine-memory definitions are direct
embeddings of the headers present in the excerpt.
-/

namespace Foedus

/-- Modelled from the spec: the mode of a lock-queue node,
`mode ∈ {reader, writer}` (spec section 3, LockQueueNode). The lock source
`xct_id.hpp` is absent from the excerpt. -/
inductive LockMode where
  | reader : LockMode
  | writer : LockMode
deriving DecidableEq

/-- Whether a queued request is a writer request. -/
def LockMode.isWriter : LockMode → Bool
  | LockMode.writer => true
  | LockMode.reader => false

/-- Modelled from the spec: the Versioned Record Word (`VersionedRecordId`,
called `XctId` in the test harness): an epoch, an intra-epoch ordinal and
the four status flags `is_valid / is_deleted / is_moved / is_keylocked`
(spec sections 3 and 4.1). Field widths are immaterial to the claims, so
epoch and ordinal are plain naturals. -/
structure XctId where
  epoch : Nat
  ordinal : Nat
  valid_flag : Bool
  deleted_flag : Bool
  moved_flag : Bool
  keylocked_flag : Bool
deriving DecidableEq

/-- Accessor `is_valid`: pure projection of the snapshot (spec 4.1). -/
def XctId.is_valid (x : XctId) : Bool := x.valid_flag

/-- Accessor `is_deleted`: pure projection of the snapshot (spec 4.1). -/
def XctId.is_deleted (x : XctId) : Bool := x.deleted_flag

/-- Accessor `is_moved`: pure projection of the snapshot (spec 4.1). -/
def XctId.is_moved (x : XctId) : Bool := x.moved_flag

/-- Accessor `is_keylocked`: pure projection of the snapshot (spec 4.1). -/
def XctId.is_keylocked (x : XctId) : Bool := x.keylocked_flag

/-- Modelled from the spec: one lock-queue node ("block"): `successor`
(handle or none = 0), `granted`, `finalized`, `mode` (spec section 3,
LockQueueNode). -/
structure McsRwBlock where
  granted : Bool
  finalized : Bool
  mode : LockMode
  successor : Nat
deriving DecidableEq

/-- Modelled from the spec: the state of one `ReaderWriterLock` instance
(spec 4.3): the set of currently granted holders, abstracted to the count
of granted writers and granted readers, plus the FIFO queue of still
waiting (blocking-path) requests. `tail = free` in the spec corresponds to
no holder and an empty queue. -/
structure McsRwLock where
  nWriters : Nat
  nReaders : Nat
  queue : List LockMode
deriving DecidableEq

/-- `tail == free` iff no thread currently holds or awaits the lock
(spec section 3, invariants). -/
def McsRwLock.is_free (l : McsRwLock) : Bool :=
  decide (l.nWriters = 0) && decide (l.nReaders = 0) && l.queue.isEmpty

/-- Whether a writer request is already queued on the lock. -/
def McsRwLock.hasQueuedWriter (l : McsRwLock) : Bool :=
  l.queue.any LockMode.isWriter

/-- Modelled from the spec: the lock-bearing record handle
(`RwLockableXctId` in the test harness): one VersionedRecordId plus one
ReaderWriterLock (spec 4.4). -/
structure RwLockableXctId where
  xct_id : XctId
  lock : McsRwLock
deriving DecidableEq

/-- Record-level accessor `is_deleted`, delegating to the embedded word,
as used by the test harness (`keys[i].is_deleted()`). -/
def RwLockableXctId.is_deleted (r : RwLockableXctId) : Bool :=
  r.xct_id.is_deleted

/-- Record-level accessor `is_moved`, delegating to the embedded word. -/
def RwLockableXctId.is_moved (r : RwLockableXctId) : Bool :=
  r.xct_id.is_moved

/-- Record-level accessor `is_keylocked`, delegating to the embedded
word. -/
def RwLockableXctId.is_keylocked (r : RwLockableXctId) : Bool :=
  r.xct_id.is_keylocked

/-- The pristine versioned record word: all flags cleared, epoch and
ordinal zero. -/
def pristineXctId : XctId :=
  { epoch := 0, ordinal := 0, valid_flag := false, deleted_flag := false,
    moved_flag := false, keylocked_flag := false }

/-- The free lock: no holder, empty queue (`tail = free`). -/
def freeLock : McsRwLock := { nWriters := 0, nReaders := 0, queue := [] }

/-- Modelled from the spec: `reset()` returns the VersionedRecordId and the
lock to a pristine, unlocked, valid-cleared state (spec 4.4); called only
while not concurrently visible to other threads. -/
def RwLockableXctId.reset (_ : RwLockableXctId) : RwLockableXctId :=
  { xct_id := pristineXctId, lock := freeLock }

/-- The record state right after `reset()`: the initial state of every key
in the test harness. -/
def initRec : RwLockableXctId := { xct_id := pristineXctId, lock := freeLock }

/-- Modelled from the spec: the guard under which `try_acquire_writer` can
succeed: the lock was observed free at the moment of a single atomic
transition (spec 4.3). -/
def canGrantWriter (r : RwLockableXctId) : Bool := r.lock.is_free

/-- Modelled from the spec: the guard under which `try_acquire_reader` can
succeed: the lock is free or already held only by other readers; it fails
if a writer holds it or a writer is already queued (spec 4.3). -/
def canGrantReader (r : RwLockableXctId) : Bool :=
  decide (r.lock.nWriters = 0) && !r.lock.hasQueuedWriter

/-- Modelled from the spec: the state change of granting a writer: the
writer becomes a granted holder and the record word's `is_keylocked` flag
is raised, its transition sequenced with the lock transition (spec 5). -/
def grantWriterRec (r : RwLockableXctId) : RwLockableXctId :=
  { xct_id := { r.xct_id with keylocked_flag := true },
    lock := { r.lock with nWriters := r.lock.nWriters + 1 } }

/-- Modelled from the spec: the state change of granting a reader: one more
granted reader; readers do not touch the writer flag (spec 4.3, scenario
3). -/
def grantReaderRec (r : RwLockableXctId) : RwLockableXctId :=
  { r with lock := { r.lock with nReaders := r.lock.nReaders + 1 } }

/-- Modelled from the spec: `try_acquire_writer` on the record: a single
non-blocking attempt; succeeds only if the lock was observed free, and
does not enqueue if it cannot grant immediately (spec 4.3). The boolean is
the success of the attempt. -/
def tryAcquireWriterRec (r : RwLockableXctId) : RwLockableXctId × Bool :=
  if canGrantWriter r then (grantWriterRec r, true) else (r, false)

/-- Modelled from the spec: `try_acquire_reader` on the record: succeeds
whenever the lock is free or held only by other readers; fails, without
enqueuing, if a writer holds it or a writer is already queued (spec
4.3). -/
def tryAcquireReaderRec (r : RwLockableXctId) : RwLockableXctId × Bool :=
  if canGrantReader r then (grantReaderRec r, true) else (r, false)

/-- Modelled from the spec: the blocking `acquire_writer` enqueue step:
append to the MCS queue via atomic exchange of tail; if no predecessor
existed the node is granted immediately (spec 4.3). -/
def acquireWriterRec (r : RwLockableXctId) : RwLockableXctId :=
  if canGrantWriter r then grantWriterRec r
  else { r with lock := { r.lock with queue := r.lock.queue ++ [LockMode.writer] } }

/-- Modelled from the spec: the blocking `acquire_reader` enqueue step: a
reader arriving while the lock is free or read-held with no queued writer
is granted immediately; otherwise it queues FIFO (spec 4.3). -/
def acquireReaderRec (r : RwLockableXctId) : RwLockableXctId :=
  if canGrantReader r then grantReaderRec r
  else { r with lock := { r.lock with queue := r.lock.queue ++ [LockMode.reader] } }

/-- Modelled from the spec: the handoff at release time (spec 4.3): the
next queued node is granted; if it is the head of a contiguous run of
queued readers, the whole run is granted together (reader batching) and
the writer flag stays cleared; a queued writer is granted alone and raises
the writer flag. Called only when no holder remains. -/
def handoffRec (r : RwLockableXctId) : RwLockableXctId :=
  match r.lock.queue with
  | [] => r
  | LockMode.writer :: rest =>
      { xct_id := { r.xct_id with keylocked_flag := true },
        lock := { r.lock with nWriters := 1, queue := rest } }
  | LockMode.reader :: _ =>
      let run := r.lock.queue.takeWhile (fun m => !m.isWriter)
      let rest := r.lock.queue.dropWhile (fun m => !m.isWriter)
      { r with lock :=
          { nWriters := r.lock.nWriters, nReaders := r.lock.nReaders + run.length,
            queue := rest } }

/-- Modelled from the spec: `release_writer` clears write-held state (and
the record word's writer flag, sequenced with it, spec 5); if a successor
is queued, it transitions per the handoff rule; release is called only by
the current holder (spec 6), modelled by the identity guard when no writer
holds. -/
def releaseWriterRec (r : RwLockableXctId) : RwLockableXctId :=
  if r.lock.nWriters = 0 then r
  else handoffRec
    { xct_id := { r.xct_id with keylocked_flag := false },
      lock := { r.lock with nWriters := r.lock.nWriters - 1 } }

/-- Modelled from the spec: `release_reader` decrements the active-reader
count; only the reader that observes the count reach zero performs the
handoff / free transition (spec 4.3); called only by a current reader
holder, modelled by the identity guard when no reader holds. -/
def releaseReaderRec (r : RwLockableXctId) : RwLockableXctId :=
  if r.lock.nReaders = 0 then r
  else
    if r.lock.nReaders = 1 then
      handoffRec { r with lock := { r.lock with nReaders := 0 } }
    else { r with lock := { r.lock with nReaders := r.lock.nReaders - 1 } }

/-- One atomic protocol operation on a record's lock, as issued by some
worker thread: the interleaving of threads is modelled as an arbitrary
sequence of these operations. -/
inductive LockOp where
  | tryAcqReader : LockOp
  | tryAcqWriter : LockOp
  | acqReader : LockOp
  | acqWriter : LockOp
  | relReader : LockOp
  | relWriter : LockOp
deriving DecidableEq

/-- Apply one protocol operation to the record state. -/
def applyOp (o : LockOp) (r : RwLockableXctId) : RwLockableXctId :=
  match o with
  | LockOp.tryAcqReader => (tryAcquireReaderRec r).1
  | LockOp.tryAcqWriter => (tryAcquireWriterRec r).1
  | LockOp.acqReader => acquireReaderRec r
  | LockOp.acqWriter => acquireWriterRec r
  | LockOp.relReader => releaseReaderRec r
  | LockOp.relWriter => releaseWriterRec r

/-- The record state reached from the pristine reset state by an arbitrary
interleaved sequence of protocol operations. -/
def runOps (ops : List LockOp) : RwLockableXctId :=
  ops.foldl (fun r o => applyOp o r) initRec

/-- Modelled from the spec: the calling thread's per-thread block pool
together with the record under contention. Slot 0 of the pool is reserved
as the sentinel "no block" handle (spec section 3, BlockPool); a node is
referenced by its slot index (the `McsBlockIndex` handle of the test
harness). The pool here grows by appending the next claimed slot, which is
`acquire_slot() -> handle` claiming the next free slot (spec 4.2). -/
structure LockSys where
  record : RwLockableXctId
  pool : List McsRwBlock
deriving DecidableEq

/-- The sentinel block occupying reserved slot 0 of a pool. -/
def sentinelBlock : McsRwBlock :=
  { granted := false, finalized := false, mode := LockMode.reader, successor := 0 }

/-- The initial system state: a pristine record and a pool holding only the
reserved sentinel slot 0. -/
def initSys : LockSys := { record := initRec, pool := [sentinelBlock] }

/-- The block stored at a given handle of the pool, if any. -/
def blockAt (s : LockSys) (h : Nat) : Option McsRwBlock := s.pool[h]?

/-- Modelled from the spec: `try_acquire_writer() -> handle | none`: on
success the caller's freshly claimed node has `granted = true` and
`finalized = true` already settled and its slot index is returned as the
handle; on failure the sentinel handle 0 is returned immediately and
nothing is enqueued (spec 4.3). -/
def tryAcquireWriterSys (s : LockSys) : LockSys × Nat :=
  if canGrantWriter s.record then
    ({ record := grantWriterRec s.record,
       pool := s.pool ++
         [{ granted := true, finalized := true, mode := LockMode.writer,
            successor := 0 }] },
     s.pool.length)
  else (s, 0)

/-- Modelled from the spec: `try_acquire_reader() -> handle | none`:
analogous to the writer variant, succeeding whenever the lock is free or
held only by other readers and no writer is queued (spec 4.3). -/
def tryAcquireReaderSys (s : LockSys) : LockSys × Nat :=
  if canGrantReader s.record then
    ({ record := grantReaderRec s.record,
       pool := s.pool ++
         [{ granted := true, finalized := true, mode := LockMode.reader,
            successor := 0 }] },
     s.pool.length)
  else (s, 0)

/-!
Direct embeddings of the headers present in the source excerpt.
-/

/-- `SequentialPartitioner` of
`foedus/storage/sequential/sequential_partitioner_impl.hpp`: the class
carries no state (its constructor ignores its parent). -/
structure SequentialPartitioner where
  unused : Unit
deriving DecidableEq

/-- `bool is_partitionable() const { return true; }` from
`sequential_partitioner_impl.hpp`. -/
def SequentialPartitioner.is_partitionable (_ : SequentialPartitioner) : Bool :=
  true

/-- `uint64_t get_required_sort_buffer_size(uint32_t log_count) const
{ return 0; }` from `sequential_partitioner_impl.hpp`; the `log_count`
argument is ignored by the source. -/
def SequentialPartitioner.get_required_sort_buffer_size
    (_ : SequentialPartitioner) (_log_count : Nat) : Nat :=
  0

/-- Modelled from the spec: `foedus::thread::ThreadGroupId` is declared in
`foedus/thread/thread_id.hpp`, which is absent from the excerpt; per the
spec's worker-thread identity collaborator it is a narrow unsigned integer
type, modelled here as an 8-bit unsigned (`uint8_t`), so a narrowing
`static_cast` keeps the value modulo 2^8. -/
def threadGroupIdBits : Nat := 8

/-- Modelled from the spec: `foedus::thread::MAX_THREAD_GROUP_ID` from the
absent `thread_id.hpp`: the largest value representable in the
`ThreadGroupId` type. Only `MAX_THREAD_GROUP_ID < 2 ^ threadGroupIdBits`
matters to the claims. -/
def MAX_THREAD_GROUP_ID : Nat := 2 ^ threadGroupIdBits - 1

/-- `EngineMemory` of `foedus/memory/engine_memory.hpp`, restricted to the
member the claims touch: `std::vector<NumaNodeMemory*> node_memories_`,
whose elements are opaque pointers abstracted to naturals (only the
vector's size is ever used by the accessor). -/
structure EngineMemory where
  node_memories : List Nat
deriving DecidableEq

/-- The condition asserted by `ASSERT_ND` inside
`EngineMemory::get_node_memory_count()`:
`node_memories_.size() <= foedus::thread::MAX_THREAD_GROUP_ID`
(`engine_memory.hpp` line 41; `ASSERT_ND(x)` is `assert(x)` in debug mode
and a no-op in release mode, `assert_nd.hpp`). -/
def EngineMemory.node_count_assertion (m : EngineMemory) : Prop :=
  m.node_memories.length ≤ MAX_THREAD_GROUP_ID

instance (m : EngineMemory) : Decidable m.node_count_assertion := by
  unfold EngineMemory.node_count_assertion
  infer_instance

/-- `get_node_memory_count()` of `engine_memory.hpp`:
`return static_cast<foedus::thread::ThreadGroupId>(node_memories_.size());`
with the narrowing cast to the 8-bit `ThreadGroupId` made explicit as a
reduction modulo 2^8. -/
def EngineMemory.get_node_memory_count (m : EngineMemory) : Nat :=
  m.node_memories.length % 2 ^ threadGroupIdBits

/-!
The protocol invariant of a record's lock: at most one granted writer,
never a granted writer together with a granted reader, and the record
word's writer flag raised exactly while a writer is granted.
-/

/-- The protocol invariant maintained by every lock operation. -/
def LockInv (r : RwLockableXctId) : Prop :=
  r.lock.nWriters ≤ 1 ∧ (r.lock.nWriters = 0 ∨ r.lock.nReaders = 0) ∧
  r.xct_id.keylocked_flag = decide (r.lock.nWriters ≠ 0)

/-- A concrete system state whose lock is write-held: used to exercise the
failed-try theorems on a concrete input. -/
def wHeldSys : LockSys := { record := grantWriterRec initRec, pool := [sentinelBlock] }

lemma handoffRec_inv (r : RwLockableXctId) (hw : r.lock.nWriters = 0)
    (hr0 : r.lock.nReaders = 0) (hk : r.xct_id.keylocked_flag = false) :
    LockInv (handoffRec r) := by
  unfold handoffRec
  split
  · exact ⟨by omega, Or.inl hw, by simp [hk, hw]⟩
  · exact ⟨by simp, Or.inr (by simp [hr0]), by simp⟩
  · exact ⟨by simp [hw], Or.inl (by simp [hw]), by simp [hk, hw]⟩

lemma canGrantWriter_free (r : RwLockableXctId) (h : canGrantWriter r = true) :
    r.lock.nWriters = 0 ∧ r.lock.nReaders = 0 ∧ r.lock.queue = [] := by
  simp [canGrantWriter, McsRwLock.is_free] at h
  exact ⟨h.1.1, h.1.2, h.2⟩

lemma canGrantReader_nWriters (r : RwLockableXctId)
    (h : canGrantReader r = true) : r.lock.nWriters = 0 := by
  simp [canGrantReader] at h
  exact h.1

lemma grantWriterRec_inv (r : RwLockableXctId) (h : canGrantWriter r = true) :
    LockInv (grantWriterRec r) := by
  obtain ⟨hw, hr, _⟩ := canGrantWriter_free r h
  exact ⟨by simp [grantWriterRec, hw], Or.inr (by simp [grantWriterRec, hr]),
    by simp [grantWriterRec]⟩

lemma grantReaderRec_inv (r : RwLockableXctId) (hinv : LockInv r)
    (h : canGrantReader r = true) : LockInv (grantReaderRec r) := by
  have hw := canGrantReader_nWriters r h
  exact ⟨by simp [grantReaderRec, hw], Or.inl (by simp [grantReaderRec, hw]),
    by simpa [grantReaderRec, hw] using hinv.2.2⟩

lemma releaseWriterRec_inv (r : RwLockableXctId) (hinv : LockInv r) :
    LockInv (releaseWriterRec r) := by
  unfold releaseWriterRec
  split
  · exact hinv
  · rename_i hne
    have hle := hinv.1
    have h1 : r.lock.nWriters = 1 := by omega
    have hr0 : r.lock.nReaders = 0 := by
      rcases hinv.2.1 with h | h
      · omega
      · exact h
    exact handoffRec_inv _ (by simp [h1]) (by simp [hr0]) (by simp)

lemma releaseReaderRec_inv (r : RwLockableXctId) (hinv : LockInv r) :
    LockInv (releaseReaderRec r) := by
  unfold releaseReaderRec
  split
  · exact hinv
  · rename_i hne
    have hw : r.lock.nWriters = 0 := by
      rcases hinv.2.1 with h | h
      · exact h
      · omega
    split
    · exact handoffRec_inv _ (by simp [hw]) (by simp) (by simpa [hw] using hinv.2.2)
    · exact ⟨by simp [hw], Or.inl (by simp [hw]), by simpa [hw] using hinv.2.2⟩

lemma applyOp_inv (o : LockOp) (r : RwLockableXctId) (hinv : LockInv r) :
    LockInv (applyOp o r) := by
  cases o with
  | tryAcqReader =>
      simp only [applyOp, tryAcquireReaderRec]
      split
      · exact grantReaderRec_inv r hinv (by assumption)
      · exact hinv
  | tryAcqWriter =>
      simp only [applyOp, tryAcquireWriterRec]
      split
      · exact grantWriterRec_inv r (by assumption)
      · exact hinv
  | acqReader =>
      simp only [applyOp, acquireReaderRec]
      split
      · exact grantReaderRec_inv r hinv (by assumption)
      · exact ⟨hinv.1, hinv.2.1, hinv.2.2⟩
  | acqWriter =>
      simp only [applyOp, acquireWriterRec]
      split
      · exact grantWriterRec_inv r (by assumption)
      · exact ⟨hinv.1, hinv.2.1, hinv.2.2⟩
  | relReader => exact releaseReaderRec_inv r hinv
  | relWriter => exact releaseWriterRec_inv r hinv

lemma foldl_inv (ops : List LockOp) (r : RwLockableXctId) (hinv : LockInv r) :
    LockInv (ops.foldl (fun s o => applyOp o s) r) := by
  induction ops generalizing r with
  | nil => exact hinv
  | cons o rest ih => exact ih _ (applyOp_inv o r hinv)

lemma initRec_inv : LockInv initRec := by
  unfold LockInv initRec pristineXctId freeLock
  decide

lemma runOps_inv (ops : List LockOp) : LockInv (runOps ops) :=
  foldl_inv ops initRec initRec_inv

/-!
Claim theorems.
-/

/-- Claim C1: for every lock, in every state reachable from reset by an
interleaved sequence of protocol operations, the `is_keylocked()` accessor
of the VersionedRecordId returns true if and only if a writer currently
holds the lock; in particular it returns false while the lock is held only
by granted readers. -/
theorem C1_is_keylocked_iff_writer_holds (ops : List LockOp) :
    (runOps ops).xct_id.is_keylocked = true ↔ (runOps ops).lock.nWriters ≠ 0 := by
  have h := (runOps_inv ops).2.2
  simp [XctId.is_keylocked, h]

/-- Claim C6: for every lock, in every reachable state, at most one writer
is granted, and never is a granted writer concurrent with a granted reader
(any number of readers may be granted only when no writer is). -/
theorem C6_mutual_exclusion (ops : List LockOp) :
    (runOps ops).lock.nWriters ≤ 1 ∧
    ((runOps ops).lock.nWriters = 0 ∨ (runOps ops).lock.nReaders = 0) :=
  ⟨(runOps_inv ops).1, (runOps_inv ops).2.1⟩

/-- Claim C2: every failed try-acquire call (reader or writer) returns the
sentinel handle 0 as an explicit result value and leaves the externally
observable state — record word flags, lock tail/free status, reader count,
queue and block pool — exactly as it was: a failed try never enqueues a
node. (The pool holds at least the reserved sentinel slot 0.) -/
theorem C2_failed_try_is_frame (s : LockSys) (hpool : 1 ≤ s.pool.length) :
    ((tryAcquireWriterSys s).2 = 0 → (tryAcquireWriterSys s).1 = s) ∧
    ((tryAcquireReaderSys s).2 = 0 → (tryAcquireReaderSys s).1 = s) := by
  constructor
  · intro h0
    unfold tryAcquireWriterSys at h0 ⊢
    split at h0
    · exact absurd h0 (by omega)
    · simp_all
  · intro h0
    unfold tryAcquireReaderSys at h0 ⊢
    split at h0
    · exact absurd h0 (by omega)
    · simp_all

/-- Witness for C2: on a write-held lock both try variants fail, and the
state after each failed attempt is exactly the state before it. -/
theorem C2_witness :
    (tryAcquireWriterSys wHeldSys).1 = wHeldSys ∧
    (tryAcquireReaderSys wHeldSys).1 = wHeldSys :=
  ⟨(C2_failed_try_is_frame wHeldSys (by decide)).1 (by decide),
   (C2_failed_try_is_frame wHeldSys (by decide)).2 (by decide)⟩

/-- Claim C3: every successful try-acquire call (reader or writer) returns
a non-zero handle whose pool node already has `granted = true` and
`finalized = true` settled at the moment the call returns, and the lock
already records the caller as a holder, so the handle is immediately valid
to release. (The pool holds at least the reserved sentinel slot 0.) -/
theorem C3_success_settled (s : LockSys) (_hpool : 1 ≤ s.pool.length) :
    ((tryAcquireWriterSys s).2 ≠ 0 →
      blockAt (tryAcquireWriterSys s).1 (tryAcquireWriterSys s).2 =
        some { granted := true, finalized := true, mode := LockMode.writer,
               successor := 0 } ∧
      0 < (tryAcquireWriterSys s).1.record.lock.nWriters) ∧
    ((tryAcquireReaderSys s).2 ≠ 0 →
      blockAt (tryAcquireReaderSys s).1 (tryAcquireReaderSys s).2 =
        some { granted := true, finalized := true, mode := LockMode.reader,
               successor := 0 } ∧
      0 < (tryAcquireReaderSys s).1.record.lock.nReaders) := by
  constructor
  · intro hne
    unfold tryAcquireWriterSys at hne ⊢
    split at hne
    · split
      · constructor
        · simp [blockAt, List.getElem?_concat_length]
        · simp [grantWriterRec]
      · simp_all
    · exact absurd rfl hne
  · intro hne
    unfold tryAcquireReaderSys at hne ⊢
    split at hne
    · split
      · constructor
        · simp [blockAt, List.getElem?_concat_length]
        · simp [grantReaderRec]
      · simp_all
    · exact absurd rfl hne

/-- Witness for C3: on the initial free state both try variants succeed and
the returned node is granted and finalized. -/
theorem C3_witness :
    blockAt (tryAcquireWriterSys initSys).1 (tryAcquireWriterSys initSys).2 =
      some { granted := true, finalized := true, mode := LockMode.writer,
             successor := 0 } ∧
    blockAt (tryAcquireReaderSys initSys).1 (tryAcquireReaderSys initSys).2 =
      some { granted := true, finalized := true, mode := LockMode.reader,
             successor := 0 } :=
  ⟨((C3_success_settled initSys (by decide)).1 (by decide)).1,
   ((C3_success_settled initSys (by decide)).2 (by decide)).1⟩

/-- Claim C4: release restores freedom and acquire/release is a round trip:
after a sole writer holder releases with no queued waiters the lock is
observably free and a subsequent `try_acquire_writer` succeeds; moreover on
any free state (with the writer flag clear, as in every reachable free
state) try-acquire followed by the matching release — for the writer and
for the reader — returns the record exactly to its initial free state. -/
theorem C4_release_restores_freedom (r : RwLockableXctId)
    (hw : r.lock.nWriters = 1) (hr : r.lock.nReaders = 0)
    (hq : r.lock.queue = []) :
    (releaseWriterRec r).lock.is_free = true ∧
    (tryAcquireWriterRec (releaseWriterRec r)).2 = true ∧
    (∀ s : RwLockableXctId, s.lock.is_free = true →
      s.xct_id.is_keylocked = false →
      (tryAcquireWriterRec s).2 = true ∧
      releaseWriterRec (tryAcquireWriterRec s).1 = s ∧
      (tryAcquireReaderRec s).2 = true ∧
      releaseReaderRec (tryAcquireReaderRec s).1 = s) := by
  have hfree : (releaseWriterRec r).lock.is_free = true := by
    unfold releaseWriterRec
    split
    · omega
    · unfold handoffRec
      split <;> simp_all [McsRwLock.is_free, hw, hr]
  refine ⟨hfree, by simp [tryAcquireWriterRec, canGrantWriter, hfree], ?_⟩
  intro s hsfree hskl
  obtain ⟨⟨e, o, v, d, m, k⟩, ⟨nw, nr, q⟩⟩ := s
  simp [McsRwLock.is_free] at hsfree
  simp [RwLockableXctId.is_keylocked, XctId.is_keylocked] at hskl
  obtain ⟨⟨hnw, hnr⟩, hq2⟩ := hsfree
  subst hnw
  subst hnr
  subst hq2
  subst hskl
  refine ⟨?_, ?_, ?_, ?_⟩
  · simp [tryAcquireWriterRec, canGrantWriter, McsRwLock.is_free]
  · simp [tryAcquireWriterRec, canGrantWriter, McsRwLock.is_free,
      grantWriterRec, releaseWriterRec, handoffRec]
  · simp [tryAcquireReaderRec, canGrantReader, McsRwLock.hasQueuedWriter]
  · simp [tryAcquireReaderRec, canGrantReader, McsRwLock.hasQueuedWriter,
      grantReaderRec, releaseReaderRec, handoffRec]

/-- Witness for C4: a concretely write-held lock with no waiters becomes
free on release, and the pristine record round-trips through
acquire/release. -/
theorem C4_witness :
    (releaseWriterRec (grantWriterRec initRec)).lock.is_free = true ∧
    (tryAcquireWriterRec initRec).2 = true ∧
    releaseWriterRec (tryAcquireWriterRec initRec).1 = initRec ∧
    releaseReaderRec (tryAcquireReaderRec initRec).1 = initRec := by
  have h := C4_release_restores_freedom (grantWriterRec initRec)
    (by decide) (by decide) (by decide)
  have h3 := h.2.2 initRec (by decide) (by decide)
  exact ⟨h.1, h3.1, h3.2.1, h3.2.2.2⟩

/-- Claim C5: after `reset()` the lock-bearing record handle is pristine
and unlocked: `is_valid`, `is_deleted`, `is_keylocked` and `is_moved` all
return false (for every prior state of the handle), and the embedded lock
is free. -/
theorem C5_reset_pristine (r : RwLockableXctId) :
    (r.reset).xct_id.is_valid = false ∧ (r.reset).is_deleted = false ∧
    (r.reset).is_keylocked = false ∧ (r.reset).is_moved = false ∧
    (r.reset).lock.is_free = true := by
  simp [RwLockableXctId.reset, RwLockableXctId.is_deleted,
    RwLockableXctId.is_keylocked, RwLockableXctId.is_moved, XctId.is_valid,
    XctId.is_deleted, XctId.is_keylocked, XctId.is_moved, pristineXctId,
    freeLock, McsRwLock.is_free]

/-- Claim C7: `try_acquire_reader` succeeds (returns a non-zero handle)
exactly when no writer holds the lock and no writer is queued waiting: it
succeeds on a free or reader-held lock and a try-read never jumps ahead of
a queued writer. (The pool holds at least the reserved sentinel slot 0.) -/
theorem C7_try_reader_success_iff (s : LockSys) (hpool : 1 ≤ s.pool.length) :
    (tryAcquireReaderSys s).2 ≠ 0 ↔
      (s.record.lock.nWriters = 0 ∧ s.record.lock.hasQueuedWriter = false) := by
  unfold tryAcquireReaderSys
  by_cases hc : canGrantReader s.record = true
  · simp only [hc, if_true]
    simp only [canGrantReader] at hc
    simp at hc
    constructor
    · intro _
      exact ⟨hc.1, hc.2⟩
    · intro _
      omega
  · simp only [eq_false_of_ne_true hc, if_false]
    simp only [canGrantReader] at hc
    simp at hc
    constructor
    · intro h
      exact absurd rfl h
    · intro h
      exact absurd (hc h.1) (by simp [h.2])

/-- Witness for C7: on the initial free state the reader try succeeds with
a non-zero handle, and on a write-held state it fails. -/
theorem C7_witness : (tryAcquireReaderSys initSys).2 ≠ 0 :=
  (C7_try_reader_success_iff initSys (by decide)).mpr (by decide)

/-- Claim C9: `SequentialPartitioner::is_partitionable()` returns true for
every instance and `get_required_sort_buffer_size(log_count)` returns 0 for
every log count: the sequential partitioner never requires a sort
buffer. -/
theorem C9_sequential_partitioner_trivial (p : SequentialPartitioner)
    (log_count : Nat) :
    p.is_partitionable = true ∧
    p.get_required_sort_buffer_size log_count = 0 :=
  ⟨rfl, rfl⟩

/-- Claim C10: whenever `node_memories_.size()` satisfies the `ASSERT_ND`
condition `size <= MAX_THREAD_GROUP_ID`, the narrowing cast inside
`EngineMemory::get_node_memory_count()` loses no information and the
returned `ThreadGroupId` equals `node_memories_.size()` exactly. -/
theorem C10_node_memory_count_exact (m : EngineMemory)
    (h : m.node_count_assertion) :
    m.get_node_memory_count = m.node_memories.length := by
  unfold EngineMemory.get_node_memory_count
  unfold EngineMemory.node_count_assertion MAX_THREAD_GROUP_ID at h
  have hb : (2 : Nat) ^ threadGroupIdBits = 256 := by decide
  exact Nat.mod_eq_of_lt (by omega)

/-- Witness for C10: a three-node memory list satisfies the assertion and
the accessor returns exactly 3. -/
theorem C10_witness :
    EngineMemory.node_count_assertion { node_memories := [7, 7, 7] } ∧
    EngineMemory.get_node_memory_count { node_memories := [7, 7, 7] } = 3 :=
  ⟨by decide, C10_node_memory_count_exact { node_memories := [7, 7, 7] } (by decide)⟩

end Foedus
